import Mathlib

/-!
Shallow embedding of the Dermalens backend (Python) in Lean 4, together with
theorems settling the frozen claims about it.

Conventions of the embedding:
* Python `float` scores are modelled as `ℚ` (all score arithmetic in the
  source is sums of small decimal constants and a `min` cap).
* Python dictionaries returned by the services are modelled as structures;
  a key that may be absent or bound to `None` is an `Option` field.
* External effects (Supabase queries, the OpenAI chat call, the Google
  Custom Search HTTP call, image downloads) are modelled as environment
  records supplying the outcome of each call; a raised exception of an
  external call is an `Except.error`.
* Python truthiness of an optional string (`None` and `""` are falsy) is
  `strTruthy`; substring membership `pat in s` is `pyIn pat s`.
-/

namespace Dermalens

/-- Characters of `p` occur contiguously inside the second list
(Python `pat in s` on the underlying characters). -/
def subChars (p : List Char) : List Char → Bool
  | [] => p.isEmpty
  | c :: cs => p.isPrefixOf (c :: cs) || subChars p cs

/-- Python `pat in s` for strings. -/
def pyIn (pat s : String) : Bool := subChars pat.data s.data

/-- Python `s.lower()` (ASCII, matching `Char.toLower`). -/
def pyLower (s : String) : String := ⟨s.data.map Char.toLower⟩

/-- Python truthiness of an optional string: `None` and `""` are falsy. -/
def strTruthy (o : Option String) : Bool := o.getD "" != ""

/-- `profiles` row used by the analysis flow (only the fields the flow reads). -/
structure Profile where
  username : Option String
  email : Option String
deriving DecidableEq

/-- `user_skin_profiles` row: the columns the services read.  The database
schema always materialises every column, so key-presence tests in the
Python code are `True` and only value truthiness matters. -/
structure SkinProfile where
  skin_type : Option String
  sensitivity_level : Option String
  primary_concerns : List String
  pre_existing_conditions : List String
  allergies : List String
  skin_goals : List String
deriving DecidableEq

/-! ### OpenAI analysis service (`openai_analysis_service.py`) -/

/-- Structured analysis extracted by `_parse_analysis_response`. -/
structure ParsedAnalysis where
  conditions_detected : List String
  skin_type : String
  recommended_ingredients : List String
  recommended_product_types : List String
  routine_morning : List String
  routine_evening : List String
  precautions : List String
  improvement_timeline : String
  full_analysis : String
deriving DecidableEq

/-- Condition keywords scanned for by `_parse_analysis_response`. -/
def conditionsKeywords : List String :=
  ["acne", "hyperpigmentation", "dark spots", "wrinkles", "fine lines",
   "rosacea", "eczema", "dryness", "oily", "blackheads", "whiteheads",
   "enlarged pores", "redness", "inflammation", "aging signs", "sun damage"]

/-- Ingredient keywords scanned for by `_parse_analysis_response`. -/
def ingredientsKeywords : List String :=
  ["niacinamide", "retinol", "hyaluronic acid", "vitamin c", "salicylic acid",
   "benzoyl peroxide", "azelaic acid", "glycolic acid", "ceramides",
   "peptides", "antioxidants", "spf", "sunscreen"]

/-- Product-type keywords scanned for by `_parse_analysis_response`. -/
def productTypesKeywords : List String :=
  ["cleanser", "toner", "serum", "moisturizer", "sunscreen",
   "exfoliant", "mask", "spot treatment", "eye cream"]

/-- Skin types scanned for (first match wins) by `_parse_analysis_response`. -/
def skinTypesKeywords : List String :=
  ["oily", "dry", "combination", "normal", "sensitive"]

/-- `OpenAISkinAnalysisService._parse_analysis_response`: keyword scans over
the lowercased free-text response; `full_analysis` stores the text verbatim. -/
def parse_analysis_response (analysis_text : String) : ParsedAnalysis :=
  let analysis_lower := pyLower analysis_text
  { conditions_detected :=
      (conditionsKeywords.filter (fun c => pyIn c analysis_lower)).map
        (fun c => c.replace " " "_")
  , skin_type := (skinTypesKeywords.find? (fun t => pyIn t analysis_lower)).getD "unknown"
  , recommended_ingredients := ingredientsKeywords.filter (fun i => pyIn i analysis_lower)
  , recommended_product_types := productTypesKeywords.filter (fun t => pyIn t analysis_lower)
  , routine_morning := [], routine_evening := []
  , precautions := [], improvement_timeline := ""
  , full_analysis := analysis_text }

/-- The fixed leading lines of `_build_analysis_prompt`. -/
def basePromptLines : List String :=
  ["Please analyze this facial skin image comprehensively. Provide a detailed professional assessment including:",
   "",
   "1. **SKIN CONDITIONS DETECTED**",
   "   - List all visible skin conditions (acne, hyperpigmentation, wrinkles, redness, etc.)",
   "   - Rate severity for each condition (mild, moderate, severe)",
   "   - Identify specific areas affected",
   "",
   "2. **SKIN TYPE ASSESSMENT**",
   "   - Determine skin type (oily, dry, combination, normal)",
   "   - Assess hydration levels",
   "   - Note texture and pore visibility",
   "",
   "3. **ROOT CAUSES & FACTORS**",
   "   - Identify potential causes of detected issues",
   "   - Environmental factors to consider",
   "   - Lifestyle factors that may contribute",
   "",
   "4. **PERSONALIZED RECOMMENDATIONS**",
   "   - Specific ingredients to look for (e.g., niacinamide, retinol, hyaluronic acid)",
   "   - Product types needed (cleanser, serum, moisturizer, sunscreen)",
   "   - Treatment priorities (what to address first)",
   "   - Morning and evening routine suggestions",
   "",
   "5. **IMPROVEMENT TIMELINE**",
   "   - Expected timeline for visible improvements",
   "   - Milestones to track progress",
   "",
   "6. **PRECAUTIONS & WARNINGS**",
   "   - Ingredients or products to avoid",
   "   - Potential sensitivities to watch for",
   "   - When to seek professional help"]

/-- `OpenAISkinAnalysisService._build_analysis_prompt`: joins the fixed
assessment request with optional user-context lines (the first argument,
the basic user profile, is accepted but never read by the source). -/
def build_analysis_prompt (_user_profile : Option Profile)
    (user_skin_profile : Option SkinProfile) : String :=
  let parts := basePromptLines
  let parts :=
    match user_skin_profile with
    | none => parts
    | some sp =>
      let parts := parts ++ ["", "**USER PROFILE CONTEXT:**"]
      let parts := if strTruthy sp.skin_type then
          parts ++ ["- User reports skin type as: " ++ sp.skin_type.getD ""] else parts
      let parts := if sp.primary_concerns.isEmpty then parts else
          parts ++ ["- Main concerns: " ++ String.intercalate ", " sp.primary_concerns]
      let parts := if sp.allergies.isEmpty then parts else
          parts ++ ["- **IMPORTANT - User is allergic to: " ++
            String.intercalate ", " sp.allergies ++
            "** (DO NOT recommend products with these ingredients)"]
      let parts := if sp.pre_existing_conditions.isEmpty then parts else
          parts ++ ["- Pre-existing conditions: " ++
            String.intercalate ", " sp.pre_existing_conditions]
      let parts := if strTruthy sp.sensitivity_level then
          (let parts := parts ++ ["- Sensitivity level: " ++ sp.sensitivity_level.getD ""]
           if sp.sensitivity_level = some "high" then
             parts ++ ["  **Prioritize gentle, fragrance-free products**"] else parts)
        else parts
      let parts := if sp.skin_goals.isEmpty then parts else
          parts ++ ["- Goals: " ++ String.intercalate ", " sp.skin_goals]
      parts
  let parts := parts ++
    ["",
     "Format your response in clear sections with markdown headings (##) for each category.",
     "Be specific, actionable, and personalized based on the image and user context provided."]
  String.intercalate "\n" parts

/-- The system message of the single chat request built by `analyze_skin_image`. -/
def systemMessage : String :=
  "You are an expert dermatologist with years of experience in skin analysis and skincare recommendations."

/-- One chat-completions request as assembled by `analyze_skin_image`:
model, system message, the user text prompt, the data-URL of the
base64-encoded image, `max_tokens` and `temperature`. -/
structure ChatRequest where
  model : String
  system_content : String
  user_text : String
  image_url : String
  max_tokens : Nat
  temperature : ℚ
deriving DecidableEq

/-- Result dictionary of `analyze_skin_image`.  On failure the source dict
carries only `success`, `error` and `analysis: None`; the `raw_response`
and `model_used` keys are absent (`none`). -/
structure AIResult where
  success : Bool
  error : Option String
  analysis : Option ParsedAnalysis
  raw_response : Option String
  model_used : Option String
deriving DecidableEq

/-- Environment of the OpenAI service: the `enabled` flag (`OPENAI_ENABLED`
and a key being configured), the configured model name, the base64 encoder
(a library call, kept abstract), and the outcome of the chat-completions
API call for a given request (`Except.error` models a raised exception). -/
structure OpenAIEnv where
  enabled : Bool
  model : String
  encode : List Nat → String
  chat : ChatRequest → Except String String

/-- `OpenAISkinAnalysisService.analyze_skin_image`.  Returns the result
dictionary together with the trace of chat requests issued (the source
has exactly one call site inside the `try`). -/
def analyze_skin_image (env : OpenAIEnv) (image_data : List Nat)
    (user_profile : Option Profile) (user_skin_profile : Option SkinProfile) :
    AIResult × List ChatRequest :=
  if env.enabled = false then
    (⟨false, some "OpenAI API is not enabled", none, none, none⟩, [])
  else
    let base64_image := env.encode image_data
    let prompt := build_analysis_prompt user_profile user_skin_profile
    let req : ChatRequest :=
      ⟨env.model, systemMessage, prompt,
       "data:image/jpeg;base64," ++ base64_image, 2000, 7/10⟩
    match env.chat req with
    | .ok analysis_text =>
        (⟨true, none, some (parse_analysis_response analysis_text),
          some analysis_text, some env.model⟩, [req])
    | .error e => (⟨false, some e, none, none, none⟩, [req])

/-- Result of `generate_personalized_recommendations`.  The failure dict of
the source has only `success` and `error`; absent keys are `none` / `[]`. -/
structure Recommendations where
  success : Bool
  error : Option String
  search_queries : List String
  conditions : List String
  recommended_ingredients : List String
  recommended_products : List String
  skin_type : Option String
  full_analysis : Option String
deriving DecidableEq

/-- `OpenAISkinAnalysisService.generate_personalized_recommendations`.
Subscripting `analysis_result["analysis"]` when that key is `None` raises
in Python; the raise is the `Except.error` case. -/
def generate_personalized_recommendations (analysis_result : AIResult)
    (_user_skin_profile : Option SkinProfile) : Except String Recommendations :=
  if analysis_result.success = false then
    .ok ⟨false, some "Analysis failed, cannot generate recommendations",
         [], [], [], [], none, none⟩
  else
    match analysis_result.analysis with
    | none => .error "TypeError: NoneType object is not subscriptable"
    | some analysis =>
      let search_queries :=
        analysis.conditions_detected.map
          (fun condition => "treatment for " ++ condition.replace "_" " ")
        ++ (analysis.recommended_ingredients.take 3).map
          (fun ingredient => "serum with " ++ ingredient)
        ++ analysis.recommended_product_types.map
          (fun product_type => product_type ++ " for " ++ analysis.skin_type ++ " skin")
      .ok ⟨true, none, search_queries, analysis.conditions_detected,
           analysis.recommended_ingredients, analysis.recommended_product_types,
           some analysis.skin_type, some analysis.full_analysis⟩

/-! ### Google Custom Search service (`google_search_service.py`) -/

/-- `pagemap["cse_image"][0]` of a search item (first entry of the list,
the only one the source ever reads). -/
structure CseImage where
  src : Option String
deriving DecidableEq

/-- One entry of `pagemap["metatags"]` (only the keys the source reads). -/
structure Metatag where
  og_image : Option String
  og_brand : Option String
  product_brand : Option String
deriving DecidableEq

/-- `pagemap["offer"][0]` of a search item. -/
structure OfferInfo where
  price : Option String
  pricecurrency : Option String
  availability : Option String
deriving DecidableEq

/-- `pagemap["product"][0]` of a search item. -/
structure ProductInfo where
  brand : Option String
  ratingvalue : Option String
  reviewcount : Option String
deriving DecidableEq

/-- The `pagemap` object of a search item.  A key bound to a list is
modelled by its first element (the only element the source reads);
key presence of `metatags` is modelled as the list being nonempty. -/
structure PageMap where
  cse_image : Option CseImage
  metatags : List Metatag
  offer : Option OfferInfo
  product : Option ProductInfo
deriving DecidableEq

/-- One raw result item of the Custom Search response. -/
structure SearchItem where
  title : Option String
  snippet : Option String
  link : Option String
  displayLink : Option String
  pagemap : Option PageMap
deriving DecidableEq

/-- `searchInformation` of the raw response. -/
structure SearchInfo where
  searchTime : Option ℚ
  totalResults : Option String
deriving DecidableEq

/-- Raw Custom Search API response. -/
structure RawResults where
  items : List SearchItem
  searchInformation : Option SearchInfo
deriving DecidableEq

/-- Product dictionary built by `_parse_search_results` and enriched by
`_extract_product_metadata`, `_deduplicate_and_rank` and the comprehensive
service.  Keys that are set only on some paths are `Option` fields
(`none` also covers a key explicitly bound to Python `None`);
`conditions_matched` is read with default `[]` everywhere, so a plain list. -/
structure GProduct where
  name : String
  description : String
  url : String
  source : String
  image : Option String
  rank : Nat
  relevance_score : Option ℚ
  price : Option String
  currency : Option String
  availability : Option String
  brand : Option String
  rating : Option String
  review_count : Option String
  conditions_matched : List String
  final_score : Option ℚ
deriving DecidableEq

/-- Retailer domains boosted by `_calculate_relevance`. -/
def knownRetailers : List String :=
  ["sephora", "ulta", "dermstore", "lookfantastic", "cultbeauty", "beautylish"]

/-- `GoogleSearchService._calculate_relevance`: base `0.5`, `+0.3` for a
known retailer domain, `+0.2` for product structured data, capped at `1.0`. -/
def calculate_relevance (item : SearchItem) : ℚ :=
  let score : ℚ := 1/2
  let domain := pyLower (item.displayLink.getD "")
  let score := if knownRetailers.any (fun retailer => pyIn retailer domain)
    then score + 3/10 else score
  let score := if (item.pagemap.map (fun pm => pm.product.isSome)).getD false
    then score + 1/5 else score
  min score 1

/-- `GoogleSearchService._extract_image`: `cse_image[0].src` if the
`cse_image` key exists (even when `src` is absent), else the first
metatag carrying `og:image`. -/
def extract_image (item : SearchItem) : Option String :=
  match item.pagemap with
  | none => none
  | some pm =>
    match pm.cse_image with
    | some first => first.src
    | none => (pm.metatags.find? (fun mt => mt.og_image.isSome)).bind (·.og_image)

/-- `GoogleSearchService._extract_product_metadata`, applied to the product
record (the source builds a `metadata` dict and `product.update`s it). -/
def extract_product_metadata (item : SearchItem) (p : GProduct) : GProduct :=
  match item.pagemap with
  | none => p
  | some pm =>
    let p := match pm.offer with
      | some offer =>
        { p with price := offer.price
               , currency := some (offer.pricecurrency.getD "USD")
               , availability := some (offer.availability.getD "unknown") }
      | none => p
    let p := match pm.product with
      | some product_info =>
        { p with brand := product_info.brand
               , rating := product_info.ratingvalue
               , review_count := product_info.reviewcount }
      | none => p
    match pm.metatags with
    | [] => p
    | metatag :: _ =>
      if strTruthy p.brand then p
      else { p with brand :=
        (if strTruthy metatag.og_brand then metatag.og_brand else metatag.product_brand) }

/-- `GoogleSearchService._parse_search_results`: one product per item, with
rank `idx + 1` and the relevance score, then the metadata update. -/
def parse_search_results (results : RawResults) : List GProduct :=
  results.items.enum.map (fun p =>
    extract_product_metadata p.2
      { name := p.2.title.getD "Unknown Product"
      , description := p.2.snippet.getD ""
      , url := p.2.link.getD ""
      , source := p.2.displayLink.getD ""
      , image := extract_image p.2
      , rank := p.1 + 1
      , relevance_score := some (calculate_relevance p.2)
      , price := none, currency := none, availability := none
      , brand := none, rating := none, review_count := none
      , conditions_matched := [], final_score := none })

/-- Search filters dict (`_build_filters_from_profile` / `_build_search_query`).
`skin_type` is double-optional: the outer layer is key presence (the key is
copied together with its — possibly `None` — value), the inner the value.
The ingredient lists are only ever added nonempty, so key presence
coincides with nonemptiness. -/
structure Filters where
  brand : Option String
  product_type : Option String
  ingredients_include : List String
  ingredients_exclude : List String
  skin_type : Option (Option String)
deriving DecidableEq

/-- Python truthiness of the filters dict: at least one key present. -/
def filtersTruthy (f : Filters) : Bool :=
  f.brand.isSome || f.product_type.isSome || !f.ingredients_include.isEmpty
    || !f.ingredients_exclude.isEmpty || f.skin_type.isSome

/-- `GoogleSearchService._build_filters_from_profile`. -/
def build_filters_from_profile (user_profile : Option SkinProfile) : Filters :=
  match user_profile with
  | none => ⟨none, none, [], [], none⟩
  | some sp =>
    { brand := none
    , product_type := none
    , ingredients_exclude := if sp.allergies.isEmpty then [] else sp.allergies
    , skin_type := some sp.skin_type
    , ingredients_include :=
        if sp.sensitivity_level = some "high"
        then ["fragrance-free", "gentle", "hypoallergenic"] else [] }

/-- `GoogleSearchService._build_search_query`. -/
def build_search_query (query : String) (skin_condition : Option String)
    (filters : Option Filters) : String :=
  let search_parts := [query]
  let search_parts := if strTruthy skin_condition
    then search_parts ++ ["for " ++ skin_condition.getD ""] else search_parts
  let search_parts :=
    match filters with
    | none => search_parts
    | some f =>
      if filtersTruthy f then
        let search_parts := if strTruthy f.brand
          then search_parts ++ [f.brand.getD ""] else search_parts
        let search_parts := if strTruthy f.product_type
          then search_parts ++ [f.product_type.getD ""] else search_parts
        let search_parts := if f.ingredients_include.isEmpty then search_parts
          else search_parts ++ ["with " ++ String.intercalate " " f.ingredients_include]
        let search_parts := if f.ingredients_exclude.isEmpty then search_parts
          else search_parts ++ f.ingredients_exclude.map (fun ingredient => "-" ++ ingredient)
        search_parts
      else search_parts
  String.intercalate " " search_parts

/-- Exception raised by `_execute_search`: the Google client `HttpError`,
or any other exception. -/
inductive SearchErr
  | http (msg : String)
  | other (msg : String)
deriving DecidableEq

/-- Environment of the Google search service: the `enabled` flag and the
outcome of `_execute_search` for a given built query and result count. -/
structure SearchEnv where
  enabled : Bool
  exec : String → Nat → Except SearchErr RawResults

/-- Result dictionary of `search_products`.  On failure only `success`,
`error` and `products` are present; `metadata` is flattened into the
`search_time` / `total_available` fields. -/
structure SearchResult where
  success : Bool
  error : Option String
  query : Option String
  products : List GProduct
  total_results : Option Nat
  search_time : Option ℚ
  total_available : Option String
deriving DecidableEq

/-- `GoogleSearchService.search_products` (default `max_results` is
`GOOGLE_SEARCH_MAX_RESULTS = 10`). -/
def search_products (se : SearchEnv) (query : String)
    (skin_condition : Option String) (max_results : Nat)
    (filters : Option Filters) : SearchResult :=
  if se.enabled = false then
    ⟨false, some "Google Custom Search API is not enabled", none, [], none, none, none⟩
  else
    let search_query := build_search_query query skin_condition filters
    match se.exec search_query (min max_results 10) with
    | .error (.http e) =>
        ⟨false, some ("Search API error: " ++ e), none, [], none, none, none⟩
    | .error (.other e) =>
        ⟨false, some ("Search failed: " ++ e), none, [], none, none, none⟩
    | .ok results =>
        let products := parse_search_results results
        ⟨true, none, some search_query, products, some products.length,
         some ((results.searchInformation.bind (·.searchTime)).getD 0),
         some ((results.searchInformation.bind (·.totalResults)).getD "0")⟩

/-! #### `_deduplicate_and_rank` -/

/-- Record update used by the dedup pass. -/
def withConds (p : GProduct) (cs : List String) : GProduct :=
  { p with conditions_matched := cs }

/-- Append `condition` to the `conditions_matched` of the first product in
the list whose `url` is `u` (the `elif url in seen_urls` branch). -/
def addCond (u condition : String) : List GProduct → List GProduct
  | [] => []
  | q :: qs =>
    if q.url == u then
      { q with conditions_matched := q.conditions_matched ++ [condition] } :: qs
    else q :: addCond u condition qs

/-- One iteration of the flattening loop of `_deduplicate_and_rank`:
a nonempty unseen url starts a fresh entry with `conditions_matched :=
[condition]`; a seen url accumulates the condition on the existing entry;
an empty url is dropped. -/
def dedupStep (acc : List GProduct) (condition : String) (p : GProduct) : List GProduct :=
  if p.url != "" && acc.all (fun q => q.url != p.url) then
    acc ++ [withConds p [condition]]
  else if acc.any (fun q => q.url == p.url) then
    addCond p.url condition acc
  else acc

/-- The flattened `(condition, product)` pairs of a `products_by_condition`
dict, in iteration order. -/
def conditionPairs (products_by_condition : List (String × List GProduct)) :
    List (String × GProduct) :=
  products_by_condition.flatMap (fun cp => cp.2.map (fun p => (cp.1, p)))

/-- The dedup pass over the flattened pairs. -/
def dedupPairs (pairs : List (String × GProduct)) : List GProduct :=
  pairs.foldl (fun acc cp => dedupStep acc cp.1 cp.2) []

/-- Truthiness of `product.get("rating")`. -/
def ratingTruthy (p : GProduct) : Bool := p.rating.getD "" != ""

/-- Truthiness of `product.get("price")`. -/
def priceTruthy (p : GProduct) : Bool := p.price.getD "" != ""

/-- The blended score of the ranking loop before the cap. -/
def rankScore (p : GProduct) : ℚ :=
  p.relevance_score.getD (1/2)
    + p.conditions_matched.length * (1/10)
    + (if ratingTruthy p then 1/10 else 0)
    + (if priceTruthy p then 1/20 else 0)

/-- The ranking loop body: sets `final_score := min score 1.0`. -/
def rankProduct (p : GProduct) : GProduct :=
  { p with final_score := some (min (rankScore p) 1) }

/-- Sort key of the final sort: `x.get("final_score", 0)`. -/
def fsKey (p : GProduct) : ℚ := p.final_score.getD 0

/-- `GoogleSearchService._deduplicate_and_rank`: flatten and deduplicate by
url, rank, and sort by `final_score` descending (Python `list.sort` is a
stable merge sort). -/
def deduplicate_and_rank (products_by_condition : List (String × List GProduct)) :
    List GProduct :=
  ((dedupPairs (conditionPairs products_by_condition)).map rankProduct).mergeSort
    (fun a b => decide (fsKey b ≤ fsKey a))

/-- Ordered-dict assignment `m[k] = v`: overwrite in place or append. -/
def dictSet (m : List (String × List GProduct)) (k : String) (v : List GProduct) :
    List (String × List GProduct) :=
  if m.any (fun p => p.1 == k) then
    m.map (fun p => if p.1 == k then (k, v) else p)
  else m ++ [(k, v)]

/-- Result dictionary of `search_products_for_conditions`. -/
structure CondSearchResult where
  success : Bool
  error : Option String
  products_by_condition : List (String × List GProduct)
  recommended_products : List GProduct
  total_products : Option Nat
deriving DecidableEq

/-- `GoogleSearchService.search_products_for_conditions`. -/
def search_products_for_conditions (se : SearchEnv) (conditions : List String)
    (user_profile : Option SkinProfile) : CondSearchResult :=
  if se.enabled = false then
    ⟨false, some "Google Custom Search API is not enabled", [], [], none⟩
  else
    let all_products := conditions.foldl (fun all_products condition =>
      let query := "skincare products for " ++ condition
      let filters := build_filters_from_profile user_profile
      let result := search_products se query (some condition) 10 (some filters)
      if result.success then dictSet all_products condition result.products
      else all_products) []
    let deduplicated_products := deduplicate_and_rank all_products
    ⟨true, none, all_products, deduplicated_products,
     some deduplicated_products.length⟩

/-! ### Comprehensive analysis service (`comprehensive_analysis_service.py`) -/

/-- `products` dictionary returned by `_search_products_for_recommendations`;
the `total_found` key is absent (`none`) on the disabled/mock path. -/
structure ProductsBundle where
  products : List GProduct
  search_queries_used : List String
  total_found : Option Nat
  source : String
deriving DecidableEq

/-- The collection loop of `_search_products_for_recommendations`: products
and queries gathered from the condition search (top 3 conditions) and from
one ingredient search per first two recommended ingredients. -/
def spfrCollect (se : SearchEnv) (recommendations : Recommendations)
    (user_skin_profile : Option SkinProfile) : List GProduct × List String :=
  let conditions := recommendations.conditions
  let start : List GProduct × List String :=
    if conditions.isEmpty then ([], [])
    else
      let result := search_products_for_conditions se (conditions.take 3) user_skin_profile
      if result.success then
        (result.recommended_products,
         ["Conditions: " ++ String.intercalate ", " (conditions.take 3)])
      else ([], [])
  (recommendations.recommended_ingredients.take 2).foldl (fun acc ingredient =>
    let query := "skincare " ++ ingredient ++ " serum"
    let result := search_products se query none 5 none
    if result.success then (acc.1 ++ result.products, acc.2 ++ [query]) else acc)
    start

/-- The dedup loop of `_search_products_for_recommendations`: keep the first
occurrence of each nonempty url. -/
def spfrUnique (all_products : List GProduct) : List GProduct :=
  all_products.foldl (fun acc p =>
    if p.url != "" && acc.all (fun q => q.url != p.url) then acc ++ [p] else acc) []

/-- Sort key `x.get("final_score", x.get("relevance_score", 0))`. -/
def spfrKey (p : GProduct) : ℚ := p.final_score.getD (p.relevance_score.getD 0)

/-- `ComprehensiveSkinAnalysisService._search_products_for_recommendations`. -/
def search_products_for_recommendations (se : SearchEnv)
    (recommendations : Recommendations) (user_skin_profile : Option SkinProfile) :
    ProductsBundle :=
  if se.enabled = false then ⟨[], [], none, "mock"⟩
  else
    let collected := spfrCollect se recommendations user_skin_profile
    let unique_products := spfrUnique collected.1
    let sorted := unique_products.mergeSort (fun a b => decide (spfrKey b ≤ spfrKey a))
    ⟨sorted.take 10, collected.2, some unique_products.length, "google_search"⟩

/-! #### `_generate_skincare_routine` -/

/-- One step of the generated routine. -/
structure RoutineItem where
  step : Nat
  action : String
  product : String
  url : String
  instructions : String
deriving DecidableEq

/-- Serum steps: up to the given serums, consecutively numbered from `start`. -/
def serumItems (start : Nat) (action instructions : String) :
    List GProduct → List RoutineItem
  | [] => []
  | serum :: rest =>
    ⟨start, action, serum.name, serum.url, instructions⟩
      :: serumItems (start + 1) action instructions rest

/-- The morning routine: optional cleanser, up to two serums, optional
moisturizer, optional sunscreen, with the running step counter. -/
def buildMorning (cleansers serums moisturizers sunscreens : List GProduct) :
    List RoutineItem :=
  let c := match cleansers with
    | [] => []
    | x :: _ => [⟨1, "Gentle Cleanser", x.name, x.url,
        "Cleanse face with lukewarm water, massage for 60 seconds, rinse thoroughly"⟩]
  let s := serumItems (1 + c.length) "Treatment Serum"
    "Apply 2-3 drops, gently pat into skin, wait 1-2 minutes before next step"
    (serums.take 2)
  let m := match moisturizers with
    | [] => []
    | x :: _ => [⟨1 + c.length + s.length, "Moisturizer", x.name, x.url,
        "Apply while skin is slightly damp for better absorption"⟩]
  let u := match sunscreens with
    | [] => []
    | x :: _ => [⟨1 + c.length + s.length + m.length, "Sunscreen SPF 30+", x.name, x.url,
        "Apply generously, reapply every 2 hours if outdoors"⟩]
  c ++ s ++ m ++ u

/-- The evening routine: same slots, no sunscreen. -/
def buildEvening (cleansers serums moisturizers : List GProduct) :
    List RoutineItem :=
  let c := match cleansers with
    | [] => []
    | x :: _ => [⟨1, "Double Cleanse", x.name, x.url,
        "First with oil/balm, then with water-based cleanser"⟩]
  let s := serumItems (1 + c.length) "Treatment Serum"
    "Apply on clean, dry skin" (serums.take 2)
  let m := match moisturizers with
    | [] => []
    | x :: _ => [⟨1 + c.length + s.length, "Night Moisturizer", x.name, x.url,
        "Apply generously as last step to seal in treatments"⟩]
  c ++ s ++ m

/-- The routine dictionary. -/
structure Routine where
  morning : List RoutineItem
  evening : List RoutineItem
  key_ingredients : List String
  timeline : String
  notes : List String
deriving DecidableEq

/-- Keyword category filters of `_generate_skincare_routine`. -/
def cleanserFilter (product_list : List GProduct) : List GProduct :=
  product_list.filter (fun p => pyIn "cleanser" (pyLower p.name))

/-- Products whose lowercased name contains `serum`. -/
def serumFilter (product_list : List GProduct) : List GProduct :=
  product_list.filter (fun p => pyIn "serum" (pyLower p.name))

/-- Products whose lowercased name contains `moisturizer` or `cream`. -/
def moisturizerFilter (product_list : List GProduct) : List GProduct :=
  product_list.filter (fun p =>
    pyIn "moisturizer" (pyLower p.name) || pyIn "cream" (pyLower p.name))

/-- Products whose lowercased name contains `sunscreen` or `spf`. -/
def sunscreenFilter (product_list : List GProduct) : List GProduct :=
  product_list.filter (fun p =>
    pyIn "sunscreen" (pyLower p.name) || pyIn "spf" (pyLower p.name))

/-- `ComprehensiveSkinAnalysisService._generate_skincare_routine`. -/
def generate_skincare_routine (analysis : ParsedAnalysis)
    (products : ProductsBundle) (_user_skin_profile : Option SkinProfile) : Routine :=
  let product_list := products.products
  let cleansers := cleanserFilter product_list
  let serums := serumFilter product_list
  let moisturizers := moisturizerFilter product_list
  let sunscreens := sunscreenFilter product_list
  { morning := buildMorning cleansers serums moisturizers sunscreens
  , evening := buildEvening cleansers serums moisturizers
  , key_ingredients := analysis.recommended_ingredients
  , timeline := "Expect to see improvements in 4-6 weeks with consistent use"
  , notes :=
      ["Introduce new products one at a time (wait 1 week between additions)",
       "Always patch test new products",
       "Consistency is key - stick to routine for best results"] }

/-! #### `analyze_user_by_id` -/

/-- A `user_images` row (the fields the flow reads). -/
structure ImageRec where
  id : String
  storage_path : String
  bucket : String
  created_at : String
deriving DecidableEq

/-- Result dict of a `DatabaseManager` getter: the getters catch all
exceptions themselves, so they never raise; `data` is only read after a
`success` check. -/
structure DbRes (α : Type) where
  success : Bool
  data : α
deriving DecidableEq

/-- Parameter state (`state_dict`) of the local `SkinConditionClassifier`
network.  `analyze_user_by_id` receives it as part of the process state;
the claim of interest is that it never reads it. -/
def Weights : Type := List ℚ

/-- The environment of one `analyze_user_by_id` run: outcomes of the
Supabase queries, of the storage download (that helper catches its own
exceptions and returns `None` on failure), and the two API services. -/
structure CompEnv where
  profileRes : DbRes (Option Profile)
  skinProfileRes : DbRes (Option SkinProfile)
  imagesRes : DbRes (List ImageRec)
  download : String → String → Option (List Nat)
  openai : OpenAIEnv
  search : SearchEnv

/-- The success payload of `analyze_user_by_id` (the nested result dict,
flattened). -/
structure SuccessPayload where
  username : Option String
  email : Option String
  skin_profile : Option SkinProfile
  conditions_detected : List String
  skin_type : String
  recommended_ingredients : List String
  recommended_products : List String
  full_diagnosis : String
  model_used : String
  product_recommendations : ProductsBundle
  personalized_routine : Routine
  image_id : String
  image_path : String
  analyzed_at : String
deriving DecidableEq

/-- Result dict of `analyze_user_by_id`: always has `success`; failure
results carry `error` and `step_failed`, success results the payload. -/
structure AnalysisResult where
  success : Bool
  error : Option String
  step_failed : Option String
  payload : Option SuccessPayload
deriving DecidableEq

/-- The body of the `try` block of `analyze_user_by_id`; `Except.error`
models an exception raised inside the block (caught by the handler). -/
def analyze_body (_w : Weights) (env : CompEnv) (_user_id : String)
    (image_id : Option String) : Except String AnalysisResult :=
  if env.profileRes.success = false then
    .ok ⟨false, some "User profile not found", some "fetch_profile", none⟩
  else
    match env.profileRes.data with
    | none =>
      -- `user_profile.get(...)` on the logging line raises on `None` data
      .error "AttributeError: NoneType object has no attribute get"
    | some user_profile =>
      let user_skin_profile :=
        if env.skinProfileRes.success then env.skinProfileRes.data else none
      if env.imagesRes.success = false then
        .ok ⟨false, some "No images found for this user. Please upload a face image first.",
             some "fetch_images", none⟩
      else
        match env.imagesRes.data with
        | [] =>
          .ok ⟨false, some "No images found for this user. Please upload a face image first.",
               some "fetch_images", none⟩
        | img0 :: rest =>
          let selected : Option ImageRec :=
            match image_id with
            | some iid => (img0 :: rest).find? (fun img => img.id == iid)
            | none => some img0
          match selected with
          | none =>
            .ok ⟨false, some ("Image with ID " ++ image_id.getD "" ++ " not found"),
                 some "select_image", none⟩
          | some image_to_analyze =>
            match env.download image_to_analyze.bucket image_to_analyze.storage_path with
            | none =>
              .ok ⟨false, some "Failed to download image from storage",
                   some "download_image", none⟩
            | some [] =>
              -- `if not image_data:` also treats empty bytes as a failure
              .ok ⟨false, some "Failed to download image from storage",
                   some "download_image", none⟩
            | some (b :: bs) =>
              let analysis_result :=
                (analyze_skin_image env.openai (b :: bs)
                  (some user_profile) user_skin_profile).1
              if analysis_result.success = false then
                .ok ⟨false,
                     some ("AI analysis failed: " ++ analysis_result.error.getD "None"),
                     some "ai_analysis", none⟩
              else
                match analysis_result.analysis, analysis_result.model_used with
                | some analysis, some model_used =>
                  match generate_personalized_recommendations analysis_result
                      user_skin_profile with
                  | .error e => .error e
                  | .ok recommendations =>
                  let products :=
                    search_products_for_recommendations env.search
                      recommendations user_skin_profile
                  let routine :=
                    generate_skincare_routine analysis products user_skin_profile
                  .ok ⟨true, none, none, some
                    { username := user_profile.username
                    , email := user_profile.email
                    , skin_profile := user_skin_profile
                    , conditions_detected := analysis.conditions_detected
                    , skin_type := analysis.skin_type
                    , recommended_ingredients := analysis.recommended_ingredients
                    , recommended_products := analysis.recommended_product_types
                    , full_diagnosis := analysis.full_analysis
                    , model_used := model_used
                    , product_recommendations := products
                    , personalized_routine := routine
                    , image_id := image_to_analyze.id
                    , image_path := image_to_analyze.storage_path
                    , analyzed_at := image_to_analyze.created_at }⟩
                | _, _ => .error "TypeError: NoneType object is not subscriptable"

/-- `ComprehensiveSkinAnalysisService.analyze_user_by_id`: the `try` body
with the catch-all handler turning any exception into a
`step_failed = "unknown"` failure dict. -/
def analyze_user_by_id (w : Weights) (env : CompEnv) (user_id : String)
    (image_id : Option String) : AnalysisResult :=
  match analyze_body w env user_id image_id with
  | .ok r => r
  | .error e => ⟨false, some ("Analysis failed: " ++ e), some "unknown", none⟩

/-! ### `main.py`: `enhance_product_recommendations` -/

/-- A product of the mock catalogue in `main.py` (all keys present). -/
structure MProduct where
  name : String
  brand : String
  price : ℚ
  rating : ℚ
  description : String
  image : String
  ptype : String
  personalized_score : Option ℚ
deriving DecidableEq

/-- The per-product body of `enhance_product_recommendations`: `none` if
the product mentions one of the user allergies (product dropped), else
the product with its personalized score. -/
def enhanceOne (sp : SkinProfile) (product : MProduct) : Option MProduct :=
  let personalized_score : ℤ :=
    if sp.skin_type = some "dry" && pyIn "moisturizer" (pyLower product.ptype) then 2
    else if sp.skin_type = some "oily" && pyIn "cleanser" (pyLower product.ptype) then 2
    else if sp.skin_type = some "sensitive" && pyIn "gentle" (pyLower product.description) then 3
    else 0
  let product_safe :=
    sp.allergies.all (fun allergy => !pyIn (pyLower allergy) (pyLower product.description))
  if product_safe = false then none
  else
    let personalized_score :=
      if sp.sensitivity_level = some "high"
          && pyIn "fragrance-free" (pyLower product.description) then
        personalized_score + 2
      else if sp.sensitivity_level = some "high"
          && ["fragrance", "parfum", "alcohol"].any
               (fun ingredient => pyIn ingredient (pyLower product.description)) then
        personalized_score - 2
      else personalized_score
    some { product with
      personalized_score := some (product.rating + personalized_score * (1/10)) }

/-- `main.enhance_product_recommendations`: with no skin profile the list
is returned unchanged; otherwise allergy-mentioning products are dropped
and the rest sorted by personalized score descending. -/
def enhance_product_recommendations (products : List MProduct)
    (user_skin_profile : Option SkinProfile)
    (_detected_conditions : List String) : List MProduct :=
  match user_skin_profile with
  | none => products
  | some sp =>
    let enhanced_products := products.filterMap (enhanceOne sp)
    enhanced_products.mergeSort (fun a b =>
      decide ((b.personalized_score.getD 0) ≤ (a.personalized_score.getD 0)))

/-! ### Training (`train_model.py`) and the classifier (`main.py`) -/

/-- State of the training loop across epochs: the best validation accuracy
so far, the epochs at which the (single) checkpoint write fired, and how
many times the scheduler was stepped. -/
structure TrainState where
  best : ℚ
  saves : List Nat
  schedSteps : Nat
deriving DecidableEq

/-- One epoch of `train_model`: checkpoint iff `val_acc > best_val_acc`,
then `scheduler.step()`. -/
def trainEpoch (st : TrainState) (epoch : Nat) (val_acc : ℚ) : TrainState :=
  let st := if st.best < val_acc
    then { st with best := val_acc, saves := st.saves ++ [epoch] } else st
  { st with schedSteps := st.schedSteps + 1 }

/-- The epoch loop, with the running epoch index. -/
def runEpochs : TrainState → Nat → List ℚ → TrainState
  | st, _, [] => st
  | st, e, a :: rest => runEpochs (trainEpoch st e a) (e + 1) rest

/-- The checkpointing behaviour of `train_model`, as a function of the
sequence of per-epoch validation accuracies: `best_val_acc` starts at
`0.0`, epoch indices start at `0`. -/
def trainLoop (accs : List ℚ) : TrainState := runEpochs ⟨0, [], 0⟩ 0 accs

/-- Layer descriptors of the PyTorch modules used by the classifier. -/
inductive Layer
  | conv2d (inC outC kernel padding : Nat)
  | relu
  | maxPool (kernel : Nat)
  | adaptiveAvgPool (h w : Nat)
  | flatten
  | linear (inF outF : Nat)
  | dropout (p : ℚ)
deriving DecidableEq

/-- The `features` sequential of `SkinConditionClassifier` (`main.py`). -/
def skinClassifierFeatures : List Layer :=
  [.conv2d 3 32 3 1, .relu, .maxPool 2,
   .conv2d 32 64 3 1, .relu, .maxPool 2,
   .conv2d 64 128 3 1, .relu, .maxPool 2,
   .conv2d 128 256 3 1, .relu,
   .adaptiveAvgPool 4 4]

/-- The `classifier` sequential of `SkinConditionClassifier`. -/
def skinClassifierHead : List Layer :=
  [.flatten, .linear (256 * 4 * 4) 512, .relu, .dropout (1/2), .linear 512 12]

/-- Loss functions appearing in the training script. -/
inductive LossKind | crossEntropy
deriving DecidableEq

/-- Optimizers appearing in the training script. -/
inductive OptimKind | adam
deriving DecidableEq

/-- The training hyperparameters of `train_model`. -/
structure TrainConfig where
  loss : LossKind
  optimizer : OptimKind
  lr : ℚ
  schedStepSize : Nat
  schedGamma : ℚ
  numEpochs : Nat
  batchSize : Nat
deriving DecidableEq

/-- The configuration fixed by `train_model`: cross-entropy loss, Adam
with `lr=0.001`, `StepLR(step_size=10, gamma=0.1)`, 50 epochs, batch 32. -/
def trainConfig : TrainConfig :=
  { loss := .crossEntropy, optimizer := .adam, lr := 1/1000
  , schedStepSize := 10, schedGamma := 1/10, numEpochs := 50, batchSize := 32 }

/-- Epochs saved when continuing from best accuracy `best` at epoch `e`. -/
def savedFrom (best : ℚ) (e : Nat) : List ℚ → List Nat
  | [] => []
  | a :: rest => (if best < a then [e] else []) ++ savedFrom (max best a) (e + 1) rest

/-- A concrete product used by several witnesses. -/
def sampleProduct : GProduct :=
  { name := "CeraVe Foaming Cleanser", description := "gentle cleanser"
  , url := "https://example.com/a", source := "example.com", image := none
  , rank := 1, relevance_score := some (1/2)
  , price := none, currency := none, availability := none
  , brand := none, rating := none, review_count := none
  , conditions_matched := [], final_score := none }

/-- A concrete `main.py`-style product for the witnesses. -/
def plainCream : MProduct :=
  ⟨"Plain Cream", "B", 10, 9/2, "a simple cream", "/i.jpg", "Moisturizer", none⟩

/-- A concrete fragrance-allergic skin profile for the witnesses. -/
def fragranceProfile : SkinProfile := ⟨none, none, [], [], ["fragrance"], []⟩

/-- A concrete OpenAI environment for the witness: enabled, fixed encoder,
the chat call answers with a fixed diagnosis text. -/
def openaiEnvW : OpenAIEnv :=
  { enabled := true, model := "gpt-4o"
  , encode := fun _ => "QUJD"
  , chat := fun _ => .ok "Mild acne detected. Recommended: niacinamide serum." }

/-- A comprehensive environment where the profile fetch fails, for the
witness. -/
def envFetchFail : CompEnv :=
  { profileRes := ⟨false, none⟩
  , skinProfileRes := ⟨false, none⟩
  , imagesRes := ⟨false, []⟩
  , download := fun _ _ => none
  , openai := openaiEnvW
  , search := { enabled := false, exec := fun _ _ => .error (.other "down") } }

/-- A search environment whose HTTP call always raises, for the witness. -/
def searchEnvFail : SearchEnv :=
  { enabled := true, exec := fun _ _ => .error (.http "HttpError 403") }

/-- A comprehensive environment in which the whole workflow succeeds
(search disabled, so mock products), for the witness. -/
def envSuccess : CompEnv :=
  { profileRes := ⟨true, some ⟨some "ana", some "ana@example.com"⟩⟩
  , skinProfileRes := ⟨true, none⟩
  , imagesRes := ⟨true, [⟨"img-1", "faces/ana.jpg", "user-images", "2024-01-01"⟩]⟩
  , download := fun _ _ => some [65]
  , openai := openaiEnvW
  , search := { enabled := false, exec := fun _ _ => .error (.other "disabled") } }

/-- A recommendation input for the witness. -/
def recsW : Recommendations :=
  ⟨true, none, [], ["acne"], ["niacinamide"], ["serum"], some "oily", some "t"⟩

/-- All conditions matching url `u` among the flattened pairs, in order
(with multiplicity, exactly as the accumulation in the source produces them). -/
def condsFor (pairs : List (String × GProduct)) (u : String) : List String :=
  (pairs.filter (fun cp => cp.2.url == u)).map (fun cp => cp.1)

/-! ## Theorems -/

/-! ### Training loop lemmas -/

theorem trainEpoch_best (st : TrainState) (e : Nat) (a : ℚ) :
    (trainEpoch st e a).best = max st.best a := by
  unfold trainEpoch
  split
  · next h => simp [max_eq_right (le_of_lt h)]
  · next h => simp [max_eq_left (le_of_not_lt h)]

theorem trainEpoch_saves (st : TrainState) (e : Nat) (a : ℚ) :
    (trainEpoch st e a).saves = st.saves ++ (if st.best < a then [e] else []) := by
  unfold trainEpoch
  split <;> simp

theorem trainEpoch_schedSteps (st : TrainState) (e : Nat) (a : ℚ) :
    (trainEpoch st e a).schedSteps = st.schedSteps + 1 := by
  unfold trainEpoch
  split <;> simp

theorem runEpochs_best : ∀ (accs : List ℚ) (st : TrainState) (e : Nat),
    (runEpochs st e accs).best = accs.foldl max st.best
  | [], _, _ => rfl
  | a :: rest, st, e => by
    rw [runEpochs, runEpochs_best rest, List.foldl_cons, trainEpoch_best]

theorem runEpochs_schedSteps : ∀ (accs : List ℚ) (st : TrainState) (e : Nat),
    (runEpochs st e accs).schedSteps = st.schedSteps + accs.length
  | [], _, _ => rfl
  | a :: rest, st, e => by
    rw [runEpochs, runEpochs_schedSteps rest, trainEpoch_schedSteps]
    simp [List.length_cons]
    omega

theorem runEpochs_saves : ∀ (accs : List ℚ) (st : TrainState) (e : Nat),
    (runEpochs st e accs).saves = st.saves ++ savedFrom st.best e accs
  | [], _, _ => by simp [runEpochs, savedFrom]
  | a :: rest, st, e => by
    rw [runEpochs, runEpochs_saves rest, trainEpoch_saves, trainEpoch_best, savedFrom,
      List.append_assoc]

theorem mem_savedFrom : ∀ (accs : List ℚ) (best : ℚ) (e k : Nat),
    k ∈ savedFrom best e accs ↔
      ∃ i, ∃ h : i < accs.length, k = e + i ∧ (accs.take i).foldl max best < accs[i]
  | [], best, e, k => by simp [savedFrom]
  | a :: rest, best, e, k => by
    rw [savedFrom, List.mem_append, mem_savedFrom rest]
    constructor
    · intro hk
      rcases hk with h1 | ⟨i, hi, hk', hlt⟩
      · by_cases hb : best < a
        · simp only [hb, if_true, List.mem_singleton] at h1
          exact ⟨0, by simp, by omega, by simpa using hb⟩
        · simp [hb] at h1
      · exact ⟨i + 1, by simpa using hi, by omega, by simpa using hlt⟩
    · rintro ⟨i, hi, hk, hlt⟩
      match i with
      | 0 =>
        left
        simp only [List.take_zero, List.foldl_nil, List.getElem_cons_zero] at hlt
        simp only [hlt, if_true, List.mem_singleton]
        omega
      | i + 1 =>
        right
        refine ⟨i, by simpa using hi, by omega, ?_⟩
        simpa using hlt

/-- C5: the only checkpointing strategy of `train_model` is "save if the
validation accuracy strictly exceeds every earlier one": the checkpoint is
written in epoch `e` iff the accuracy of epoch `e` strictly exceeds the maximum
of `0.0` and all earlier accuracies, and the saves recorded by `trainLoop`
are the only writes; `best_val_acc` ends as the running maximum. -/
theorem train_model_checkpoint_iff (accs : List ℚ) :
    (∀ e, e ∈ (trainLoop accs).saves ↔
        ∃ h : e < accs.length, (accs.take e).foldl max 0 < accs[e])
    ∧ (trainLoop accs).best = accs.foldl max 0 := by
  constructor
  · intro e
    rw [trainLoop, runEpochs_saves]
    simp only [List.nil_append]
    rw [mem_savedFrom]
    constructor
    · rintro ⟨i, hi, hk, hlt⟩
      subst hk
      simpa using ⟨hi, hlt⟩
    · rintro ⟨h, hlt⟩
      exact ⟨e, h, by omega, hlt⟩
  · rw [trainLoop, runEpochs_best]

/-- Witness for `train_model_checkpoint_iff`: with accuracies
`[50, 40, 60]`, epochs `0` and `2` save the model. -/
theorem train_model_checkpoint_iff_witness :
    0 ∈ (trainLoop [50, 40, 60]).saves ∧ 2 ∈ (trainLoop [50, 40, 60]).saves :=
  ⟨((train_model_checkpoint_iff [50, 40, 60]).1 0).mpr ⟨by decide, by decide⟩,
   ((train_model_checkpoint_iff [50, 40, 60]).1 2).mpr ⟨by decide, by decide⟩⟩

/-- C6: the training pipeline is the textbook setup: cross-entropy loss,
Adam at learning rate `0.001`, `StepLR(step_size=10, gamma=0.1)` stepped
once per epoch, and the classifier has four 3x3 convolutions each followed
by ReLU, three 2x2 max-pools, an adaptive average pool, and a two-layer
fully connected head. -/
theorem train_pipeline_textbook :
    trainConfig.loss = .crossEntropy
    ∧ trainConfig.optimizer = .adam
    ∧ trainConfig.lr = 1/1000
    ∧ trainConfig.schedStepSize = 10
    ∧ trainConfig.schedGamma = 1/10
    ∧ (∀ accs : List ℚ, (trainLoop accs).schedSteps = accs.length)
    ∧ (skinClassifierFeatures.filterMap (fun l => match l with
        | .conv2d _ _ k _ => some k | _ => none)) = [3, 3, 3, 3]
    ∧ (skinClassifierFeatures.filterMap (fun l => match l with
        | .maxPool k => some k | _ => none)) = [2, 2, 2]
    ∧ skinClassifierFeatures.count .relu = 4
    ∧ .adaptiveAvgPool 4 4 ∈ skinClassifierFeatures
    ∧ (skinClassifierHead.filterMap (fun l => match l with
        | .linear i o => some (i, o) | _ => none)).length = 2 := by
  refine ⟨rfl, rfl, rfl, rfl, rfl, ?_, by decide, by decide, by decide, by decide, by decide⟩
  intro accs
  rw [trainLoop, runEpochs_schedSteps]
  simp

/-! ### Relevance and final-score bounds (C10) -/

theorem calculate_relevance_bounds (item : SearchItem) :
    1/2 ≤ calculate_relevance item ∧ calculate_relevance item ≤ 1 := by
  simp only [calculate_relevance]
  refine ⟨le_min ?_ (by norm_num), min_le_right _ _⟩
  split <;> split <;> norm_num

theorem mem_deduplicate_and_rank_final_score
    (m : List (String × List GProduct)) (p : GProduct)
    (hp : p ∈ deduplicate_and_rank m) :
    ∃ q, p = rankProduct q := by
  unfold deduplicate_and_rank at hp
  rw [List.mem_mergeSort] at hp
  obtain ⟨q, _, hq⟩ := List.mem_map.mp hp
  exact ⟨q, hq.symm⟩

/-- C10: `_calculate_relevance` always lands in `[1/2, 1]`, and every
`final_score` written by `_deduplicate_and_rank` is at most `1`. -/
theorem relevance_scores_bounded :
    (∀ item : SearchItem,
        1/2 ≤ calculate_relevance item ∧ calculate_relevance item ≤ 1)
    ∧ (∀ (m : List (String × List GProduct)) (p : GProduct),
        p ∈ deduplicate_and_rank m → ∀ f, p.final_score = some f → f ≤ 1) := by
  refine ⟨calculate_relevance_bounds, ?_⟩
  intro m p hp f hf
  obtain ⟨q, rfl⟩ := mem_deduplicate_and_rank_final_score m p hp
  unfold rankProduct at hf
  simp only [Option.some.injEq] at hf
  rw [← hf]
  exact min_le_right _ _

/-- Witness for `relevance_scores_bounded` at a concrete item and a
concrete one-condition map. -/
theorem relevance_scores_bounded_witness :
    (1/2 ≤ calculate_relevance ⟨none, none, none, some "sephora.com", none⟩
      ∧ calculate_relevance ⟨none, none, none, some "sephora.com", none⟩ ≤ 1)
    ∧ (3/5 : ℚ) ≤ 1 := by
  constructor
  · exact relevance_scores_bounded.1 ⟨none, none, none, some "sephora.com", none⟩
  · refine relevance_scores_bounded.2 [("acne", [sampleProduct])]
      (rankProduct (withConds sampleProduct ["acne"])) ?_ (3/5) ?_
    · unfold deduplicate_and_rank
      rw [List.mem_mergeSort]
      have h : dedupPairs (conditionPairs [("acne", [sampleProduct])])
          = [withConds sampleProduct ["acne"]] := by
        simp [dedupPairs, conditionPairs, dedupStep, sampleProduct, withConds]
      rw [h]
      simp
    · show some (min (rankScore (withConds sampleProduct ["acne"])) 1) = some (3/5)
      have h : rankScore (withConds sampleProduct ["acne"]) = 3/5 := by
        simp [rankScore, withConds, sampleProduct, ratingTruthy, priceTruthy]
        norm_num
      rw [h]
      norm_num [min_def]

/-! ### Allergen exclusion (C8) -/

/-- C8: with a (non-falsy) skin profile, no product returned by
`enhance_product_recommendations` has a description that mentions any of
the listed allergies (case-insensitively); offending products are dropped. -/
theorem enhance_product_recommendations_allergy_free
    (products : List MProduct) (sp : SkinProfile) (conditions : List String)
    (p : MProduct)
    (hp : p ∈ enhance_product_recommendations products (some sp) conditions) :
    ∀ allergy ∈ sp.allergies,
      pyIn (pyLower allergy) (pyLower p.description) = false := by
  intro allergy ha
  unfold enhance_product_recommendations at hp
  rw [List.mem_mergeSort] at hp
  obtain ⟨q, _, he⟩ := List.mem_filterMap.mp hp
  unfold enhanceOne at he
  dsimp only at he
  split at he
  · exact Option.noConfusion he
  · next hcond =>
    have hsafe : (sp.allergies.all
        fun allergy => !pyIn (pyLower allergy) (pyLower q.description)) = true := by
      simpa using hcond
    have hdesc : p.description = q.description := by
      have hq := Option.some.inj he
      rw [← hq]
    have hall := List.all_eq_true.mp hsafe allergy ha
    rw [hdesc]
    simpa using hall

theorem mergeSort_ne_nil {α : Type} (l : List α) (le : α → α → Bool)
    (h : l ≠ []) : l.mergeSort le ≠ [] := by
  intro h0
  apply h
  have hl := congrArg List.length h0
  rw [List.length_mergeSort] at hl
  exact List.length_eq_zero.mp hl

theorem enhance_plainCream_ne_nil :
    enhance_product_recommendations [plainCream] (some fragranceProfile) [] ≠ [] := by
  simp only [enhance_product_recommendations]
  exact mergeSort_ne_nil _ _ (by decide)

/-- Witness for `enhance_product_recommendations_allergy_free`: a
fragrance-allergic profile keeps the fragrance-free product, and the
kept product mentions no allergy. -/
theorem enhance_product_recommendations_allergy_free_witness :
    pyIn (pyLower "fragrance")
      (pyLower ((enhance_product_recommendations [plainCream] (some fragranceProfile) []).head
        enhance_plainCream_ne_nil).description) = false :=
  enhance_product_recommendations_allergy_free [plainCream] fragranceProfile [] _
    (List.head_mem _) "fragrance" (by decide)

/-! ### Vision-model interaction (C7) -/

/-- C7: when the OpenAI service is enabled and the chat call succeeds,
`analyze_skin_image` issues exactly one request — carrying the built text
prompt and the base64-encoded image as a data URL — and returns
`success=True` with the free text of the model verbatim in `raw_response` and
in `analysis.full_analysis`. -/
theorem analyze_skin_image_one_request (env : OpenAIEnv) (image_data : List Nat)
    (user_profile : Option Profile) (user_skin_profile : Option SkinProfile)
    (t : String)
    (henv : env.enabled = true)
    (hchat : env.chat
      ⟨env.model, systemMessage, build_analysis_prompt user_profile user_skin_profile,
       "data:image/jpeg;base64," ++ env.encode image_data, 2000, 7/10⟩ = .ok t) :
    (analyze_skin_image env image_data user_profile user_skin_profile).2
      = [⟨env.model, systemMessage, build_analysis_prompt user_profile user_skin_profile,
          "data:image/jpeg;base64," ++ env.encode image_data, 2000, 7/10⟩]
    ∧ (analyze_skin_image env image_data user_profile user_skin_profile).1.success = true
    ∧ (analyze_skin_image env image_data user_profile user_skin_profile).1.raw_response
        = some t
    ∧ ((analyze_skin_image env image_data user_profile user_skin_profile).1.analysis.map
        (·.full_analysis)) = some t := by
  unfold analyze_skin_image
  rw [henv]
  simp only [Bool.true_eq_false, if_false]
  rw [hchat]
  refine ⟨rfl, rfl, rfl, ?_⟩
  simp [parse_analysis_response]

/-- Witness for `analyze_skin_image_one_request` at a concrete environment. -/
theorem analyze_skin_image_one_request_witness :
    (analyze_skin_image openaiEnvW [65, 66, 67] none none).2
      = [⟨"gpt-4o", systemMessage, build_analysis_prompt none none,
          "data:image/jpeg;base64," ++ "QUJD", 2000, 7/10⟩]
    ∧ (analyze_skin_image openaiEnvW [65, 66, 67] none none).1.success = true
    ∧ (analyze_skin_image openaiEnvW [65, 66, 67] none none).1.raw_response
        = some "Mild acne detected. Recommended: niacinamide serum."
    ∧ ((analyze_skin_image openaiEnvW [65, 66, 67] none none).1.analysis.map
        (·.full_analysis))
        = some "Mild acne detected. Recommended: niacinamide serum." :=
  analyze_skin_image_one_request openaiEnvW [65, 66, 67] none none
    "Mild acne detected. Recommended: niacinamide serum." rfl rfl

/-! ### The comprehensive workflow (C1, C2) -/

theorem analyze_user_by_id_eq_ok {w : Weights} {env : CompEnv} {uid : String}
    {iid : Option String} {r : AnalysisResult}
    (h : analyze_body w env uid iid = .ok r) :
    analyze_user_by_id w env uid iid = r := by
  unfold analyze_user_by_id
  rw [h]

theorem analyze_user_by_id_eq_error {w : Weights} {env : CompEnv} {uid : String}
    {iid : Option String} {e : String}
    (h : analyze_body w env uid iid = .error e) :
    analyze_user_by_id w env uid iid
      = ⟨false, some ("Analysis failed: " ++ e), some "unknown", none⟩ := by
  unfold analyze_user_by_id
  rw [h]

/-- Every failure result produced inside the `try` body carries both an
`error` string and a `step_failed` tag. -/
theorem analyze_body_failure_shape {w : Weights} {env : CompEnv} {uid : String}
    {iid : Option String} {r : AnalysisResult}
    (h : analyze_body w env uid iid = .ok r) (hs : r.success = false) :
    r.error.isSome = true ∧ r.step_failed.isSome = true := by
  simp only [analyze_body] at h
  repeat' split at h
  all_goals try exact Except.noConfusion h
  all_goals cases h
  all_goals simp_all

/-- C2: the comprehensive analysis never raises and never loses the error
shape: every non-success result of `analyze_user_by_id` carries an `error`
string and a `step_failed` tag; and `search_products` turns any exception
of the search call (`HttpError` or other) into `success=False` with the
error message and an empty product list. -/
theorem errors_reported_as_strings :
    (∀ (w : Weights) (env : CompEnv) (uid : String) (iid : Option String),
      (analyze_user_by_id w env uid iid).success = false →
        (analyze_user_by_id w env uid iid).error.isSome = true
        ∧ (analyze_user_by_id w env uid iid).step_failed.isSome = true)
    ∧ (∀ (se : SearchEnv) (query : String) (skin_condition : Option String)
        (max_results : Nat) (filters : Option Filters) (err : SearchErr),
      se.enabled = true →
      se.exec (build_search_query query skin_condition filters)
          (min max_results 10) = .error err →
        (search_products se query skin_condition max_results filters).success = false
        ∧ (search_products se query skin_condition max_results filters).error.isSome = true
        ∧ (search_products se query skin_condition max_results filters).products = []) := by
  constructor
  · intro w env uid iid hs
    cases hb : analyze_body w env uid iid with
    | ok r =>
      rw [analyze_user_by_id_eq_ok hb] at hs ⊢
      exact analyze_body_failure_shape hb hs
    | error e =>
      rw [analyze_user_by_id_eq_error hb]
      exact ⟨rfl, rfl⟩
  · intro se query skin_condition max_results filters err hen hexec
    unfold search_products
    rw [hen]
    simp only [Bool.true_eq_false, if_false]
    rw [hexec]
    cases err <;> exact ⟨rfl, rfl, rfl⟩

/-- Witness for `errors_reported_as_strings`: a failed profile fetch yields
an error-and-step dict, and a raising search yields the empty failure dict. -/
theorem errors_reported_as_strings_witness :
    ((analyze_user_by_id [] envFetchFail "u1" none).error.isSome = true
      ∧ (analyze_user_by_id [] envFetchFail "u1" none).step_failed.isSome = true)
    ∧ ((search_products searchEnvFail "skincare niacinamide serum" none 5 none).success
        = false
      ∧ (search_products searchEnvFail "skincare niacinamide serum" none 5 none).error.isSome
        = true
      ∧ (search_products searchEnvFail "skincare niacinamide serum" none 5 none).products
        = []) :=
  ⟨errors_reported_as_strings.1 [] envFetchFail "u1" none rfl,
   errors_reported_as_strings.2 searchEnvFail "skincare niacinamide serum" none 5 none
     (.http "HttpError 403") rfl rfl⟩

/-- On a successful run, the diagnosis in the payload is exactly the
`full_analysis` text of the answer from the OpenAI service. -/
theorem analyze_body_success_diag {w : Weights} {env : CompEnv} {uid : String}
    {iid : Option String} {r : AnalysisResult}
    (h : analyze_body w env uid iid = .ok r) (hs : r.success = true) :
    ∃ image_data : List Nat,
      (r.payload.map (fun pay => pay.full_diagnosis))
        = ((analyze_skin_image env.openai image_data env.profileRes.data
            (if env.skinProfileRes.success = true then env.skinProfileRes.data
             else none)).1.analysis.map (fun a => a.full_analysis))
      ∧ ((analyze_skin_image env.openai image_data env.profileRes.data
          (if env.skinProfileRes.success = true then env.skinProfileRes.data
           else none)).1.analysis).isSome = true := by
  simp only [analyze_body] at h
  repeat' split at h
  all_goals try exact Except.noConfusion h
  all_goals cases h
  all_goals try (exact Bool.noConfusion hs)
  all_goals
    (rename_i hns x5 user_profile hprof hni x4 img0 rest himg sel image_to_analyze hsel
      x3 b bs hdl hsp hai x2 x1 analysis model_used hana hmu xr recommendations hrec;
     refine ⟨b :: bs, ?_, ?_⟩ <;>
       rw [hprof] <;>
       first
         | (rw [if_pos hsp, hana]; simp)
         | (rw [if_neg hsp, hana]; simp))

/-- C1: the comprehensive analysis bypasses the local convolutional
classifier entirely: its result is identical for any two parameter states
of the network, and the diagnosis of a successful run is exactly the text
delivered by `analyze_skin_image` (the hosted vision model). -/
theorem comprehensive_bypasses_local_classifier (w1 w2 : Weights)
    (env : CompEnv) (uid : String) (iid : Option String) :
    analyze_user_by_id w1 env uid iid = analyze_user_by_id w2 env uid iid
    ∧ ((analyze_user_by_id w1 env uid iid).success = true →
        ∃ image_data : List Nat,
          ((analyze_user_by_id w1 env uid iid).payload.map
              (fun pay => pay.full_diagnosis))
            = ((analyze_skin_image env.openai image_data env.profileRes.data
                (if env.skinProfileRes.success = true then env.skinProfileRes.data
                 else none)).1.analysis.map (fun a => a.full_analysis))
          ∧ ((analyze_skin_image env.openai image_data env.profileRes.data
              (if env.skinProfileRes.success = true then env.skinProfileRes.data
               else none)).1.analysis).isSome = true) := by
  refine ⟨rfl, ?_⟩
  intro hsucc
  cases hb : analyze_body w1 env uid iid with
  | ok r =>
    rw [analyze_user_by_id_eq_ok hb] at hsucc ⊢
    exact analyze_body_success_diag hb hsucc
  | error e =>
    rw [analyze_user_by_id_eq_error hb] at hsucc
    simp at hsucc

/-- Witness for `comprehensive_bypasses_local_classifier` at two distinct
weight states and a succeeding environment. -/
theorem comprehensive_bypasses_local_classifier_witness :
    analyze_user_by_id ([] : Weights) envSuccess "u1" none
        = analyze_user_by_id ([1] : Weights) envSuccess "u1" none
    ∧ ∃ image_data : List Nat,
        ((analyze_user_by_id ([] : Weights) envSuccess "u1" none).payload.map
            (fun pay => pay.full_diagnosis))
          = ((analyze_skin_image envSuccess.openai image_data envSuccess.profileRes.data
              (if envSuccess.skinProfileRes.success = true
               then envSuccess.skinProfileRes.data else none)).1.analysis.map
            (fun a => a.full_analysis))
        ∧ ((analyze_skin_image envSuccess.openai image_data envSuccess.profileRes.data
            (if envSuccess.skinProfileRes.success = true
             then envSuccess.skinProfileRes.data else none)).1.analysis).isSome = true :=
  ⟨(comprehensive_bypasses_local_classifier [] [1] envSuccess "u1" none).1,
   (comprehensive_bypasses_local_classifier [] [1] envSuccess "u1" none).2 (by rfl)⟩

/-! ### Routine generation (C4) -/

theorem buildMorning_spec (cl se mo su : List GProduct) :
    ((buildMorning cl se mo su).map (fun i => (i.product, i.url))
        = ((cl.take 1) ++ (se.take 2) ++ (mo.take 1) ++ (su.take 1)).map
            (fun p => (p.name, p.url)))
    ∧ (buildMorning cl se mo su).map (fun i => i.step)
        = List.range' 1 (buildMorning cl se mo su).length := by
  rcases cl with _ | ⟨c, cs⟩ <;>
    rcases mo with _ | ⟨m, ms⟩ <;>
      rcases su with _ | ⟨u, us⟩ <;>
        rcases se with _ | ⟨s1, se⟩ <;>
          (try rcases se with _ | ⟨s2, se⟩) <;>
            simp [buildMorning, serumItems, List.range']

theorem buildEvening_spec (cl se mo : List GProduct) :
    ((buildEvening cl se mo).map (fun i => (i.product, i.url))
        = ((cl.take 1) ++ (se.take 2) ++ (mo.take 1)).map (fun p => (p.name, p.url)))
    ∧ (buildEvening cl se mo).map (fun i => i.step)
        = List.range' 1 (buildEvening cl se mo).length := by
  rcases cl with _ | ⟨c, cs⟩ <;>
    rcases mo with _ | ⟨m, ms⟩ <;>
      rcases se with _ | ⟨s1, se⟩ <;>
        (try rcases se with _ | ⟨s2, se⟩) <;>
          simp [buildEvening, serumItems, List.range']

/-- C4: `_generate_skincare_routine` slots products by keyword matches on
lowercased names: the morning routine is at most one cleanser, at most two
serums, at most one moisturizer and at most one sunscreen, in that order,
with steps numbered consecutively from 1; the evening routine carries the
same products except that it has no sunscreen step. -/
theorem routine_slots_products (analysis : ParsedAnalysis)
    (products : ProductsBundle) (usp : Option SkinProfile) :
    ((generate_skincare_routine analysis products usp).morning.map
        (fun i => (i.product, i.url))
      = (((cleanserFilter products.products).take 1)
          ++ ((serumFilter products.products).take 2)
          ++ ((moisturizerFilter products.products).take 1)
          ++ ((sunscreenFilter products.products).take 1)).map (fun p => (p.name, p.url)))
    ∧ ((generate_skincare_routine analysis products usp).evening.map
        (fun i => (i.product, i.url))
      = (((cleanserFilter products.products).take 1)
          ++ ((serumFilter products.products).take 2)
          ++ ((moisturizerFilter products.products).take 1)).map (fun p => (p.name, p.url)))
    ∧ ((generate_skincare_routine analysis products usp).morning.map (fun i => i.step)
      = List.range' 1 (generate_skincare_routine analysis products usp).morning.length)
    ∧ ((generate_skincare_routine analysis products usp).evening.map (fun i => i.step)
      = List.range' 1 (generate_skincare_routine analysis products usp).evening.length) :=
  ⟨(buildMorning_spec _ _ _ _).1, (buildEvening_spec _ _ _).1,
   (buildMorning_spec _ _ _ _).2, (buildEvening_spec _ _ _).2⟩

/-! ### Product recommendation bundle (C9) -/

theorem spfrUnique_go (l : List GProduct) : ∀ acc : List GProduct,
    ((acc.map (fun p => p.url)).Nodup ∧ ∀ p ∈ acc, p.url ≠ "") →
    (((l.foldl (fun acc p =>
        if p.url != "" && acc.all (fun q => q.url != p.url) then acc ++ [p] else acc)
        acc).map (fun p => p.url)).Nodup
      ∧ ∀ p ∈ l.foldl (fun acc p =>
          if p.url != "" && acc.all (fun q => q.url != p.url) then acc ++ [p] else acc)
          acc, p.url ≠ "") := by
  induction l with
  | nil => intro acc h; simpa using h
  | cons p rest ih =>
    intro acc h
    rw [List.foldl_cons]
    apply ih
    split
    · next hcond =>
      rw [Bool.and_eq_true] at hcond
      constructor
      · rw [List.map_append]
        apply List.Nodup.append h.1 (by simp)
        intro u hu hu'
        simp only [List.map_cons, List.map_nil, List.mem_singleton] at hu'
        obtain ⟨q, hq, rfl⟩ := List.mem_map.mp hu
        have := List.all_eq_true.mp hcond.2 q hq
        simp only [bne_iff_ne, ne_eq] at this
        exact this (hu' ▸ rfl)
      · intro x hx
        rcases List.mem_append.mp hx with hx | hx
        · exact h.2 x hx
        · rw [List.mem_singleton] at hx
          subst hx
          simpa using hcond.1
    · exact h

theorem spfrUnique_spec (l : List GProduct) :
    ((spfrUnique l).map (fun p => p.url)).Nodup
      ∧ ∀ p ∈ spfrUnique l, p.url ≠ "" :=
  spfrUnique_go l [] (by simp)

theorem pairwise_mergeSort_key {α : Type} (key : α → ℚ) (l : List α) :
    (l.mergeSort (fun a b => decide (key b ≤ key a))).Pairwise
      (fun a b => key b ≤ key a) := by
  have h := @List.sorted_mergeSort α (fun a b => decide (key b ≤ key a))
    (fun a b c hab hbc => by
      simp only [decide_eq_true_eq] at *
      exact le_trans hbc hab)
    (fun a b => by
      simp only [Bool.or_eq_true, decide_eq_true_eq]
      exact le_total (key b) (key a))
    l
  exact h.imp (fun hab => by simpa using hab)

/-- C9: with the search service enabled, the recommendation bundle holds at
most 10 products with pairwise-distinct nonempty urls, sorted by the
final-score key non-increasingly, and `total_found` counts the unique
products before truncation; disabled, it is the empty mock bundle. -/
theorem search_products_for_recommendations_spec (se : SearchEnv)
    (recs : Recommendations) (usp : Option SkinProfile) :
    (se.enabled = true →
      ∃ n, (search_products_for_recommendations se recs usp).total_found = some n
        ∧ (search_products_for_recommendations se recs usp).products.length = min 10 n
        ∧ (search_products_for_recommendations se recs usp).products.length ≤ 10
        ∧ (((search_products_for_recommendations se recs usp).products.map
            (fun p => p.url)).Nodup)
        ∧ (∀ p ∈ (search_products_for_recommendations se recs usp).products, p.url ≠ "")
        ∧ (search_products_for_recommendations se recs usp).products.Pairwise
            (fun a b => spfrKey b ≤ spfrKey a))
    ∧ (se.enabled = false →
        (search_products_for_recommendations se recs usp).products = []
        ∧ (search_products_for_recommendations se recs usp).source = "mock") := by
  constructor
  · intro hen
    unfold search_products_for_recommendations
    rw [hen]
    simp only [Bool.true_eq_false, if_false]
    refine ⟨(spfrUnique (spfrCollect se recs usp).1).length, rfl, ?_, ?_, ?_, ?_, ?_⟩
    · rw [List.length_take, List.length_mergeSort]
    · rw [List.length_take, List.length_mergeSort]
      exact min_le_left _ _
    · have hperm : List.Perm
          (((spfrUnique (spfrCollect se recs usp).1).mergeSort
            (fun a b => decide (spfrKey b ≤ spfrKey a))).map (fun p => p.url))
          ((spfrUnique (spfrCollect se recs usp).1).map (fun p => p.url)) :=
        (List.mergeSort_perm _ _).map _
      have hnd := (hperm.nodup_iff).mpr (spfrUnique_spec _).1
      rw [List.map_take]
      exact hnd.sublist (List.take_sublist _ _)
    · intro p hp
      have hp' := List.mem_of_mem_take hp
      rw [List.mem_mergeSort] at hp'
      exact (spfrUnique_spec _).2 p hp'
    · exact (pairwise_mergeSort_key spfrKey _).sublist (List.take_sublist _ _)
  · intro hen
    unfold search_products_for_recommendations
    rw [hen]
    exact ⟨rfl, rfl⟩

/-- Witness for `search_products_for_recommendations_spec`: one enabled
environment (whose searches all fail) and one disabled environment. -/
theorem search_products_for_recommendations_spec_witness :
    (∃ n, (search_products_for_recommendations
            ⟨true, fun _ _ => .error (.other "x")⟩ recsW none).total_found = some n
      ∧ (search_products_for_recommendations
          ⟨true, fun _ _ => .error (.other "x")⟩ recsW none).products.length = min 10 n
      ∧ (search_products_for_recommendations
          ⟨true, fun _ _ => .error (.other "x")⟩ recsW none).products.length ≤ 10
      ∧ (((search_products_for_recommendations
          ⟨true, fun _ _ => .error (.other "x")⟩ recsW none).products.map
            (fun p => p.url)).Nodup)
      ∧ (∀ p ∈ (search_products_for_recommendations
          ⟨true, fun _ _ => .error (.other "x")⟩ recsW none).products, p.url ≠ "")
      ∧ (search_products_for_recommendations
          ⟨true, fun _ _ => .error (.other "x")⟩ recsW none).products.Pairwise
            (fun a b => spfrKey b ≤ spfrKey a))
    ∧ ((search_products_for_recommendations
          ⟨false, fun _ _ => .error (.other "x")⟩ recsW none).products = []
      ∧ (search_products_for_recommendations
          ⟨false, fun _ _ => .error (.other "x")⟩ recsW none).source = "mock") :=
  ⟨(search_products_for_recommendations_spec
      ⟨true, fun _ _ => .error (.other "x")⟩ recsW none).1 rfl,
   (search_products_for_recommendations_spec
      ⟨false, fun _ _ => .error (.other "x")⟩ recsW none).2 rfl⟩

/-! ### Deduplication and ranking (C3) -/

theorem condsFor_append (ps : List (String × GProduct)) (x : String × GProduct)
    (u : String) :
    condsFor (ps ++ [x]) u
      = condsFor ps u ++ (if x.2.url == u then [x.1] else []) := by
  unfold condsFor
  rw [List.filter_append, List.map_append]
  by_cases h : x.2.url == u <;> simp [h]

theorem find?_append_some {ps : List (String × GProduct)} {x cp : String × GProduct}
    {u : String} (h : ps.find? (fun y => y.2.url == u) = some cp) :
    (ps ++ [x]).find? (fun y => y.2.url == u) = some cp := by
  rw [List.find?_append, h]
  rfl

theorem addCond_map_url (u c : String) : ∀ l : List GProduct,
    (addCond u c l).map (fun q => q.url) = l.map (fun q => q.url)
  | [] => rfl
  | q :: qs => by
    unfold addCond
    split
    · simp
    · simp [addCond_map_url u c qs]

theorem addCond_mem (u c : String) : ∀ l : List GProduct,
    (l.map (fun q => q.url)).Nodup →
    ∀ q' ∈ addCond u c l,
      (q' ∈ l ∧ ¬(q'.url = u)) ∨
      (∃ q, q ∈ l ∧ q.url = u ∧
        q' = { q with conditions_matched := q.conditions_matched ++ [c] })
  | [], _, q', hq' => by simp [addCond] at hq'
  | q :: qs, hnd, q', hq' => by
    rw [addCond] at hq'
    obtain ⟨hq_notin, hnd'⟩ := List.nodup_cons.mp hnd
    by_cases hqu : q.url == u
    · rw [if_pos hqu] at hq'
      have hqu' : q.url = u := by simpa using hqu
      rcases List.mem_cons.mp hq' with h | h
      · exact Or.inr ⟨q, List.mem_cons_self q qs, hqu', h⟩
      · left
        refine ⟨List.mem_cons_of_mem _ h, fun hu => ?_⟩
        have hmem : q'.url ∈ qs.map (fun q => q.url) := List.mem_map_of_mem _ h
        rw [hu, ← hqu'] at hmem
        exact (by simpa using hq_notin : q.url ∉ qs.map (fun q => q.url)) hmem
    · rw [if_neg hqu] at hq'
      rcases List.mem_cons.mp hq' with rfl | h
      · exact Or.inl ⟨List.mem_cons_self _ _, by simpa using hqu⟩
      · rcases addCond_mem u c qs hnd' q' h with ⟨h1, h2⟩ | ⟨q0, h1, h2, h3⟩
        · exact Or.inl ⟨List.mem_cons_of_mem _ h1, h2⟩
        · exact Or.inr ⟨q0, List.mem_cons_of_mem _ h1, h2, h3⟩

theorem dedupPairs_append (ps : List (String × GProduct)) (x : String × GProduct) :
    dedupPairs (ps ++ [x]) = dedupStep (dedupPairs ps) x.1 x.2 := by
  simp [dedupPairs, List.foldl_append]

/-- The dedup pass keeps exactly the first occurrence of each nonempty url
and accumulates every matching condition, in order. -/
theorem dedupPairs_invariant (pairs : List (String × GProduct)) :
    (((dedupPairs pairs).map (fun q => q.url)).Nodup)
    ∧ (∀ q ∈ dedupPairs pairs, q.url ≠ "" ∧
        ∃ cp, (pairs.find? (fun y => y.2.url == q.url)) = some cp ∧
          q = withConds cp.2 (condsFor pairs q.url))
    ∧ (∀ cp ∈ pairs, cp.2.url ≠ "" → ∃ q ∈ dedupPairs pairs, q.url = cp.2.url) := by
  induction pairs using List.reverseRecOn with
  | nil => exact ⟨by simp [dedupPairs], by simp [dedupPairs], by simp⟩
  | append_singleton ps x ih =>
    obtain ⟨ih1, ih2, ih3⟩ := ih
    rw [dedupPairs_append]
    unfold dedupStep
    split
    · -- fresh nonempty url: a new entry is appended
      next hcond =>
      rw [Bool.and_eq_true] at hcond
      have hxne : x.2.url ≠ "" := by simpa using hcond.1
      have hall : ∀ q ∈ dedupPairs ps, q.url ≠ x.2.url := by
        intro q hq
        simpa using List.all_eq_true.mp hcond.2 q hq
      have hnotin : ∀ cp ∈ ps, ¬((fun y => y.2.url == x.2.url) cp = true) := by
        intro cp hcp hb
        have hbe : cp.2.url = x.2.url := by simpa using hb
        obtain ⟨q, hq, hqu⟩ := ih3 cp hcp (by rw [hbe]; exact hxne)
        exact hall q hq (by rw [hqu, hbe])
      have hfind : ps.find? (fun y => y.2.url == x.2.url) = none :=
        List.find?_eq_none.mpr hnotin
      refine ⟨?_, ?_, ?_⟩
      · rw [List.map_append]
        apply List.Nodup.append ih1 (by simp)
        intro a ha ha'
        simp only [List.map_cons, List.map_nil, List.mem_singleton] at ha'
        obtain ⟨q, hq, rfl⟩ := List.mem_map.mp ha
        exact hall q hq (by simpa [withConds] using ha')
      · intro q hq
        rcases List.mem_append.mp hq with hq | hq
        · obtain ⟨hne, cp, hcp, hshape⟩ := ih2 q hq
          refine ⟨hne, cp, find?_append_some hcp, ?_⟩
          rw [condsFor_append]
          have hbf : (x.2.url == q.url) = false :=
            beq_eq_false_iff_ne.mpr (fun he => hall q hq he.symm)
          rw [hbf]
          simpa using hshape
        · rw [List.mem_singleton] at hq
          subst hq
          refine ⟨by simpa [withConds] using hxne, x, ?_, ?_⟩
          · rw [show (withConds x.2 [x.1]).url = x.2.url from rfl,
              List.find?_append, hfind]
            simp
          · rw [show (withConds x.2 [x.1]).url = x.2.url from rfl]
            have hc : condsFor ps x.2.url = [] := by
              unfold condsFor
              rw [List.filter_eq_nil_iff.mpr hnotin]
              rfl
            rw [condsFor_append, hc]
            simp
      · intro cp hcp hne
        rcases List.mem_append.mp hcp with hcp | hcp
        · obtain ⟨q, hq, hqu⟩ := ih3 cp hcp hne
          exact ⟨q, List.mem_append_left _ hq, hqu⟩
        · rw [List.mem_singleton] at hcp
          subst hcp
          exact ⟨withConds cp.2 [cp.1], List.mem_append_right _ (by simp), rfl⟩
    · split
      · -- already-seen url: the first entry accumulates the condition
        next hseen =>
        obtain ⟨q0, hq0, hq0b⟩ := List.any_eq_true.mp hseen
        have hq0u : q0.url = x.2.url := by simpa using hq0b
        have hxne : x.2.url ≠ "" := hq0u ▸ (ih2 q0 hq0).1
        have hurlmem : ∀ u, u ∈ (dedupPairs ps).map (fun q => q.url) →
            ∃ q' ∈ addCond x.2.url x.1 (dedupPairs ps), q'.url = u := by
          intro u hu
          rw [← addCond_map_url x.2.url x.1] at hu
          obtain ⟨q', hq', rfl⟩ := List.mem_map.mp hu
          exact ⟨q', hq', rfl⟩
        refine ⟨?_, ?_, ?_⟩
        · rw [addCond_map_url]
          exact ih1
        · intro q' hq'
          rcases addCond_mem x.2.url x.1 (dedupPairs ps) ih1 q' hq' with
            ⟨hmem, hneu⟩ | ⟨q, hmem, hqu, hshape'⟩
          · obtain ⟨hne, cp, hcp, hshape⟩ := ih2 q' hmem
            refine ⟨hne, cp, find?_append_some hcp, ?_⟩
            rw [condsFor_append]
            have hbf : (x.2.url == q'.url) = false :=
              beq_eq_false_iff_ne.mpr (fun he => hneu he.symm)
            rw [hbf]
            simpa using hshape
          · obtain ⟨hne, cp, hcp, hshape⟩ := ih2 q hmem
            subst hshape'
            have hq2 : q.url = cp.2.url := by rw [hshape]; rfl
            refine ⟨by simpa using hne, cp, find?_append_some hcp, ?_⟩
            rw [show ({ q with conditions_matched := q.conditions_matched ++ [x.1]}
                  : GProduct).url = q.url from rfl]
            rw [condsFor_append]
            have hbt : (x.2.url == q.url) = true := by simp [hqu]
            rw [hbt]
            rw [hshape]
            simp [withConds, hq2]
        · intro cp hcp hne
          rcases List.mem_append.mp hcp with hcp | hcp
          · obtain ⟨q, hq, hqu⟩ := ih3 cp hcp hne
            exact hqu ▸ hurlmem q.url (List.mem_map_of_mem _ hq)
          · rw [List.mem_singleton] at hcp
            subst hcp
            exact hq0u ▸ hurlmem q0.url (List.mem_map_of_mem _ hq0)
      · -- empty url: the product is dropped
        next hc1 hc2 =>
        have hany : (dedupPairs ps).any (fun q => q.url == x.2.url) = false :=
          Bool.not_eq_true _ |>.mp hc2
        have hxe : x.2.url = "" := by
          by_contra hxe
          rw [Bool.and_eq_true] at hc1
          apply hc1
          constructor
          · simpa using hxe
          · rw [List.all_eq_true]
            intro q hq
            have := List.any_eq_false.mp hany q hq
            simpa using this
        refine ⟨ih1, ?_, ?_⟩
        · intro q hq
          obtain ⟨hne, cp, hcp, hshape⟩ := ih2 q hq
          refine ⟨hne, cp, find?_append_some hcp, ?_⟩
          rw [condsFor_append]
          have hbf : (x.2.url == q.url) = false :=
            beq_eq_false_iff_ne.mpr (fun he => hne (he ▸ hxe))
          rw [hbf]
          simpa using hshape
        · intro cp hcp hne
          rcases List.mem_append.mp hcp with hcp | hcp
          · exact ih3 cp hcp hne
          · rw [List.mem_singleton] at hcp
            subst hcp
            exact absurd hxe hne

/-- C3: `_deduplicate_and_rank` keeps each product url at most once — the
first occurrence, with every matching condition accumulated in order into
`conditions_matched` — assigns
`final_score = min(relevance + 0.1·|conditions| + 0.1[rating] + 0.05[price], 1)`,
and returns the list sorted by `final_score` non-increasingly. -/
theorem deduplicate_and_rank_spec (m : List (String × List GProduct)) :
    (((deduplicate_and_rank m).map (fun q => q.url)).Nodup)
    ∧ (∀ q ∈ deduplicate_and_rank m,
        ∃ cp, ((conditionPairs m).find? (fun y => y.2.url == q.url)) = some cp
          ∧ q = rankProduct (withConds cp.2 (condsFor (conditionPairs m) q.url)))
    ∧ (∀ q ∈ deduplicate_and_rank m, ∀ rs, q.relevance_score = some rs →
        q.final_score = some (min (rs + q.conditions_matched.length * (1/10)
          + (if ratingTruthy q then 1/10 else 0)
          + (if priceTruthy q then 1/20 else 0)) 1))
    ∧ (deduplicate_and_rank m).Pairwise (fun a b => fsKey b ≤ fsKey a) := by
  obtain ⟨inv1, inv2, _⟩ := dedupPairs_invariant (conditionPairs m)
  have hmapurl : (List.map rankProduct (dedupPairs (conditionPairs m))).map
      (fun q => q.url) = (dedupPairs (conditionPairs m)).map (fun q => q.url) := by
    rw [List.map_map]
    rfl
  refine ⟨?_, ?_, ?_, ?_⟩
  · have hperm : List.Perm
        ((deduplicate_and_rank m).map (fun q => q.url))
        ((List.map rankProduct (dedupPairs (conditionPairs m))).map (fun q => q.url)) :=
      (List.mergeSort_perm _ _).map _
    rw [hperm.nodup_iff, hmapurl]
    exact inv1
  · intro q hq
    rw [deduplicate_and_rank, List.mem_mergeSort] at hq
    obtain ⟨q0, hq0, rfl⟩ := List.mem_map.mp hq
    obtain ⟨_, cp, hcp, hshape⟩ := inv2 q0 hq0
    refine ⟨cp, hcp, ?_⟩
    rw [show (rankProduct q0).url = q0.url from rfl, ← hshape]
  · intro q hq rs hr
    rw [deduplicate_and_rank, List.mem_mergeSort] at hq
    obtain ⟨q0, hq0, rfl⟩ := List.mem_map.mp hq
    have hr0 : q0.relevance_score = some rs := hr
    show some (min (rankScore q0) 1) = _
    unfold rankScore
    rw [hr0, Option.getD_some]
    rfl
  · exact pairwise_mergeSort_key fsKey _

theorem dedup_sample_ne_nil :
    deduplicate_and_rank [("acne", [sampleProduct])] ≠ [] := by
  unfold deduplicate_and_rank
  exact mergeSort_ne_nil _ _ (by decide)

/-- Witness for `deduplicate_and_rank_spec` at a one-condition map: the
ranked product keeps the first occurrence, accumulates the condition, and
carries the blended score formula. -/
theorem deduplicate_and_rank_spec_witness :
    (∃ cp, ((conditionPairs [("acne", [sampleProduct])]).find?
        (fun y => y.2.url == (rankProduct (withConds sampleProduct ["acne"])).url))
          = some cp
      ∧ rankProduct (withConds sampleProduct ["acne"])
          = rankProduct (withConds cp.2 (condsFor
              (conditionPairs [("acne", [sampleProduct])])
              (rankProduct (withConds sampleProduct ["acne"])).url)))
    ∧ (rankProduct (withConds sampleProduct ["acne"])).final_score
        = some (min ((1/2 : ℚ)
            + ((rankProduct (withConds sampleProduct ["acne"])).conditions_matched.length
                : ℚ) * (1/10)
            + (if ratingTruthy (rankProduct (withConds sampleProduct ["acne"]))
               then 1/10 else 0)
            + (if priceTruthy (rankProduct (withConds sampleProduct ["acne"]))
               then 1/20 else 0)) 1) := by
  have hmem : rankProduct (withConds sampleProduct ["acne"])
      ∈ deduplicate_and_rank [("acne", [sampleProduct])] := by
    unfold deduplicate_and_rank
    rw [List.mem_mergeSort]
    have h : dedupPairs (conditionPairs [("acne", [sampleProduct])])
        = [withConds sampleProduct ["acne"]] := by
      simp [dedupPairs, conditionPairs, dedupStep, sampleProduct, withConds]
    rw [h]
    simp
  exact ⟨(deduplicate_and_rank_spec [("acne", [sampleProduct])]).2.1 _ hmem,
    (deduplicate_and_rank_spec [("acne", [sampleProduct])]).2.2.1 _ hmem (1/2) rfl⟩

end Dermalens
